import Mathlib

/-
Verification of the 4-agents backend: the stage pipeline executor
(`agents/workflow.py`), the cancellation controller and history ledger
(`main.py`), and the stage-level generation call (`agents/base_agent.py`).

The Python code is shallowly embedded as executable Lean definitions.
External effects (the OpenAI client, the HTTP transport, wall-clock
timestamps) are modelled as explicit environment values recording the
outcome each external call would produce; all in-repository control flow
is translated directly from the source.
-/

namespace FourAgents

/-- Outcome of a Python call that can raise: either a returned value or a
raised exception (`exn`). -/
inductive PyResult (α : Type) where
  | ok (a : α)
  | exn
deriving DecidableEq

/-- Whether the second list is an initial segment of the first. -/
def charsStartWith : List Char → List Char → Bool
  | _, [] => true
  | [], _ :: _ => false
  | c :: cs, p :: ps => c == p && charsStartWith cs ps

/-- Whether the pattern occurs somewhere in the list. -/
def containsChars (l pat : List Char) : Bool :=
  charsStartWith l pat ||
    match l with
    | [] => false
    | _ :: cs => containsChars cs pat

/-- Substring test, modelling Python `pat in s`. -/
def containsSub (s pat : String) : Bool := containsChars s.data pat.data

/-- Left-to-right non-overlapping replacement of `pat` by `repl`,
modelling Python `str.replace`; the fuel argument bounds the recursion
by the input length, one character consumed per step. -/
def replaceCharsAux (pat repl : List Char) : Nat → List Char → List Char
  | 0, l => l
  | _ + 1, [] => []
  | fuel + 1, c :: cs =>
    if pat ≠ [] && charsStartWith (c :: cs) pat then
      repl ++ replaceCharsAux pat repl fuel ((c :: cs).drop pat.length)
    else c :: replaceCharsAux pat repl fuel cs

/-- Python `str.replace(pat, repl)`. -/
def pyReplace (s pat repl : String) : String :=
  String.mk (replaceCharsAux pat.data repl.data s.data.length s.data)

/-- ASCII whitespace, the characters Python `str.strip()` removes. -/
def isPySpace (c : Char) : Bool :=
  c == ' ' || c == '\t' || c == '\n' || c == '\r' || c == Char.ofNat 11 || c == Char.ofNat 12

/-- Python `str.strip()`. -/
def pyStrip (s : String) : String :=
  String.mk (((s.data.dropWhile isPySpace).reverse.dropWhile isPySpace).reverse)

/-- Python `str.upper()` (ASCII, which covers every action string this
system stores). -/
def pyUpper (s : String) : String := String.mk (s.data.map Char.toUpper)

/-- Python `s[:n]` on a string. -/
def pyTake (s : String) (n : Nat) : String := String.mk (s.data.take n)

/-- Python `str.title()`: the first alphabetic character of each
alphabetic run is upper-cased and the following alphabetic characters are
lower-cased (ASCII letters, which covers every string this system stores). -/
def pyTitleAux : Bool → List Char → List Char
  | _, [] => []
  | prevAlpha, c :: cs =>
    let c' := if c.isAlpha then (if prevAlpha then c.toLower else c.toUpper) else c
    c' :: pyTitleAux c.isAlpha cs

/-- Python `str.title()` on a whole string. -/
def pyTitle (s : String) : String := String.mk (pyTitleAux false s.data)

/-- One entry of `kernel_stop_history` in `main.py`: a stop entry stores
`timestamp`, `action = "stop"` and `stopped_agent`; a reset entry stores
`timestamp`, `action = "reset"` (its extra `status` field is never read,
so it is not modelled). `stoppedAgent = none` models the key being absent. -/
structure HistEntry where
  timestamp : String
  action : String
  stoppedAgent : Option String
deriving DecidableEq

/-- The process-wide mutable state of `main.py`: `kernel_hard_stop`,
`current_agent` and `kernel_stop_history`. -/
structure ServerState where
  kernelHardStop : Bool
  currentAgent : Option String
  kernelStopHistory : List HistEntry
deriving DecidableEq

/-- The state effect of `POST /kernel/stop` (`kernel_stop` in `main.py`):
set the flag, append one stop entry recording `current_agent or "Unknown"`.
The timestamp `t` stands for `datetime.now(timezone.utc).isoformat()`. -/
def kernelStopOp (t : String) (s : ServerState) : ServerState :=
  { s with kernelHardStop := true,
           kernelStopHistory :=
             s.kernelStopHistory ++ [⟨t, "stop", some (s.currentAgent.getD "Unknown")⟩] }

/-- The state effect of `POST /kernel/reset` (`kernel_reset` in `main.py`):
clear the flag, append one reset entry. -/
def kernelResetOp (t : String) (s : ServerState) : ServerState :=
  { s with kernelHardStop := false,
           kernelStopHistory := s.kernelStopHistory ++ [⟨t, "reset", none⟩] }

/-- The body of `GET /kernel` (`kernel_check` in `main.py`): the `status`
field of the JSON answer. -/
def kernelEndpointStatus (s : ServerState) : String :=
  if s.kernelHardStop then "stop" else "ok"

/-- Outcome of the HTTP fallback request made by
`AgentWorkflow._check_kernel`: the status code and the optional `status`
field of the JSON body (`data.get("status")`). -/
structure HttpResp where
  statusCode : Nat
  statusField : Option String
deriving DecidableEq

/-- Environment observed by one call of `AgentWorkflow._check_kernel`:
the outcome of `self.kernel_check_func()` when a check function was
provided (`none` models `kernel_check_func is None`, which is how
`main.py` constructs the workflow), and the outcome of the HTTP fallback
request to `BACKEND_URL/kernel`. -/
structure CheckEnv where
  kernelCheckFunc : Option (PyResult Bool)
  httpResult : PyResult HttpResp
deriving DecidableEq

/-- `AgentWorkflow._check_kernel` from `agents/workflow.py`: returns
`true` when the pipeline should continue. A provided check function is
used first (`not func()`, continue on exception); otherwise the HTTP
fallback is queried (continue unless the `status` field of a 200 answer differs from
`"ok"`; continue on any error or non-200 status). -/
def checkKernel (env : CheckEnv) : Bool :=
  match env.kernelCheckFunc with
  | some f =>
    match f with
    | PyResult.ok stopped => !stopped
    | PyResult.exn => true
  | none =>
    match env.httpResult with
    | PyResult.ok r =>
      if r.statusCode = 200 then r.statusField == some "ok" else true
    | PyResult.exn => true

/-- The `CheckEnv` seen by a workflow whose HTTP fallback reaches the `GET /kernel` endpoint of this
process (the deployment in `main.py`, which
passes no `kernel_check_func`). -/
def serverKernelEnv (s : ServerState) : CheckEnv :=
  { kernelCheckFunc := none,
    httpResult := PyResult.ok { statusCode := 200, statusField := some (kernelEndpointStatus s) } }

/-- The `status` field of a streamed update dictionary. -/
inductive EvStatus where
  | starting
  | thinking
  | complete
  | stopped
  | error
deriving DecidableEq

/-- One update dictionary yielded by `process_problem_stream`. An `Option`
field set to `none` models the key being absent from the dictionary;
`done := false` models the `done` key being absent. -/
structure Event where
  agent : String
  status : EvStatus
  stage : Option Nat := none
  iteration : Option Nat := none
  message : Option String := none
  response : Option String := none
  done : Bool := false
  kernelDecision : Option String := none
  stoppedAgent : Option String := none
deriving DecidableEq

/-- The `agent` field used by stage `i` (0-based) of the pipeline. -/
def agentName : Nat → String
  | 0 => "analysis"
  | 1 => "research"
  | 2 => "critic"
  | 3 => "monitor"
  | _ => "summary"

/-- The display name interpolated into the stopped message for stage `i`. -/
def agentTitle : Nat → String
  | 0 => "Analysis Agent"
  | 1 => "Research Agent"
  | 2 => "Critic Agent"
  | 3 => "Monitor Agent"
  | _ => "Summary"

/-- The `message` field of the thinking update of stage `i`. -/
def thinkingMessage : Nat → String
  | 0 => "Analyzing the problem and breaking it down into sub-problems..."
  | 1 => "Gathering relevant knowledge, existing information, and professional assumptions..."
  | 2 => "Critically evaluating the solution, identifying weaknesses and contradictions..."
  | 3 => "Supervising the thinking process..."
  | _ => "Summarizing all agent responses into final answer..."

/-- The first update yielded by `process_problem_stream`. -/
def startingEvent : Event :=
  { agent := "system", status := EvStatus.starting, message := some "Starting analysis..." }

/-- The thinking update of stage `i`: stages 1-4 carry `stage` and
`iteration`; the summary stage carries `stage` only. -/
def thinkingEvent (i : Nat) : Event :=
  { agent := agentName i, status := EvStatus.thinking, stage := some (i + 1),
    iteration := if i = 4 then none else some 1,
    message := some (thinkingMessage i) }

/-- The complete update of stage `i` carrying response `r`: the summary
stage carries `done := true` and `kernel_decision = "N"` and no
`iteration`; stages 1-4 carry `iteration := 1`. -/
def completeEvent (i : Nat) (r : String) : Event :=
  if i = 4 then
    { agent := "summary", status := EvStatus.complete, stage := some 5,
      response := some r, done := true, kernelDecision := some "N" }
  else
    { agent := agentName i, status := EvStatus.complete, stage := some (i + 1),
      iteration := some 1, response := some r }

/-- The terminal stopped update yielded when the kernel poll after stage
`i` reports a hard stop. -/
def stoppedEvent (i : Nat) : Event :=
  { agent := "system", status := EvStatus.stopped,
    message := some ("Analysis stopped by kernel after " ++ agentTitle i),
    stoppedAgent := some (agentName i), kernelDecision := some "L" }

/-- Atomic steps of one run of `process_problem_stream`, refining the
yielded updates with the instants at which a stage generation call
begins and ends and at which the kernel is polled. -/
inductive Action where
  | emit (e : Event)
  | beginStage (agent : String)
  | endStage (agent : String)
  | poll (idx : Nat) (shouldContinue : Bool)
deriving DecidableEq

/-- The trace of the per-stage loop body of `process_problem_stream` over
the remaining stage indices: yield the thinking update, run the stage
generation call (its result abstracted as `resp i`, a `String` by the
totality of `_call_llm`), yield the complete update, poll the kernel via
`_check_kernel` observing `kenv i`; on a stop answer yield one stopped
update and end, otherwise continue with the next stage. The source
unrolls this loop into five textually identical blocks (analysis,
research, critic, monitor, summary). -/
def traceStages (resp : Nat → String) (kenv : Nat → CheckEnv) : List Nat → List Action
  | [] => []
  | i :: rest =>
    Action.emit (thinkingEvent i) ::
    Action.beginStage (agentName i) ::
    Action.endStage (agentName i) ::
    Action.emit (completeEvent i (resp i)) ::
    Action.poll i (checkKernel (kenv i)) ::
    (if checkKernel (kenv i) then traceStages resp kenv rest
     else [Action.emit (stoppedEvent i)])

/-- The full action trace of `AgentWorkflow.process_problem_stream`:
the starting update, then the five stages in order. -/
def runTrace (_problem : String) (resp : Nat → String) (kenv : Nat → CheckEnv) :
    List Action :=
  Action.emit startingEvent :: traceStages resp kenv [0, 1, 2, 3, 4]

/-- The updates yielded along a trace. -/
def eventsOf (tr : List Action) : List Event :=
  tr.filterMap fun a => match a with | Action.emit e => some e | _ => none

/-- The stages whose generation call begins along a trace, in order. -/
def beginsOf (tr : List Action) : List String :=
  tr.filterMap fun a => match a with | Action.beginStage s => some s | _ => none

/-- The sequence of updates yielded by
`AgentWorkflow.process_problem_stream`. -/
def processProblemStream (problem : String) (resp : Nat → String)
    (kenv : Nat → CheckEnv) : List Event :=
  eventsOf (runTrace problem resp kenv)

/-- The stages whose generation call is made during a run, in order. -/
def generationCalls (problem : String) (resp : Nat → String)
    (kenv : Nat → CheckEnv) : List String :=
  beginsOf (runTrace problem resp kenv)

/-- The interleaved thinking/complete updates of the first `n` stages of
an uninterrupted run. -/
def stagePairs (resp : Nat → String) : Nat → List Event
  | 0 => []
  | n + 1 => stagePairs resp n ++ [thinkingEvent n, completeEvent n (resp n)]

/-- The event sequence of a run no kernel poll interrupts: the starting
update followed by the thinking/complete pairs of the five stages. -/
def normalEvents (resp : Nat → String) : List Event :=
  startingEvent :: stagePairs resp 5

/-- A terminal event: a done-marked completion, a stopped event, or an
error event. -/
def isTerminal (e : Event) : Bool :=
  e.done || e.status == EvStatus.stopped || e.status == EvStatus.error

/-- Number of terminal events in an event sequence. -/
def countTerminal (evs : List Event) : Nat := (evs.filter isTerminal).length

/-- Whether an action is the beginning of a stage generation call. -/
def isBegin (a : Action) : Bool :=
  match a with | Action.beginStage _ => true | _ => false

/-- Number of stage generation calls that begin at or after position `k`
of a trace. -/
def countBeginsFrom (k : Nat) (tr : List Action) : Nat :=
  ((tr.drop k).filter isBegin).length

/-- Whether an action is compatible with the cancellation flag being
active: every kernel poll must report stop. -/
def pollContOk (a : Action) : Bool :=
  match a with | Action.poll _ c => !c | _ => true

/-- Every kernel poll at or after position `k` of the trace reports stop:
the observable consequence of the cancellation flag being activated just
before position `k` and never reset. -/
def pollsStopFrom (k : Nat) (tr : List Action) : Bool :=
  (tr.drop k).all pollContOk

/-- A `CheckEnv` whose provided check function reports "not stopped":
the poll answers continue. -/
def contEnv : CheckEnv :=
  { kernelCheckFunc := some (PyResult.ok false), httpResult := PyResult.exn }

/-- A `CheckEnv` whose provided check function reports "stopped": the
poll answers halt. -/
def stopEnv : CheckEnv :=
  { kernelCheckFunc := some (PyResult.ok true), httpResult := PyResult.exn }

/-- Environment observed by one `BaseAgent._call_llm` call. `hasClient`
models whether an `OPENAI_API_KEY` was present when the agent was built;
`hasResponsesApi` models `hasattr(self.client, "responses")`.
`responsesOutcome` is the net result of the GPT-5.2 attempt up to and
including the six shape-probing extraction methods applied to the foreign
response object: `exn` when `responses.create` raised, `ok none` when no
method extracted a text, `ok (some raw)` for the extracted raw text
(the probing itself inspects a foreign external object and is abstracted
as this net result). `chatOutcome` is the result of the Chat Completions
fallback: `exn` when the call raised, `ok none` when
`choices[0].message.content` was `None`, `ok (some s)` for content `s`. -/
structure LLMEnv where
  hasClient : Bool
  hasResponsesApi : Bool
  responsesOutcome : PyResult (Option String)
  chatOutcome : PyResult (Option String)
deriving DecidableEq

/-- A one-character string holding an apostrophe. -/
def aposStr : String := String.singleton (Char.ofNat 39)

/-- The escape clean-up `base_agent.py` applies to an accepted GPT-5.2
text: literal backslash-n, backslash-quote and backslash-apostrophe
sequences are replaced by the plain characters. -/
def cleanEscapes (s : String) : String :=
  pyReplace (pyReplace (pyReplace s "\\n" "\n") "\\\"" "\"") ("\\" ++ aposStr) aposStr

/-- The acceptance filter `base_agent.py` applies to a raw extracted
GPT-5.2 text: strip it; reject it when it looks like a config object or
is under 100 characters; otherwise clean escapes and accept only if the
cleaned text is over 100 characters. `none` means fall back to GPT-4o. -/
def postProcess (raw : String) : Option String :=
  let s := pyStrip raw
  if containsSub s "ResponseTextConfig" || containsSub s "verbosity" || s.length < 100 then
    none
  else
    let c := cleanEscapes s
    if c.length > 100 then some c else none

/-- The GPT-5.2 attempt inside `_call_llm`: skipped when the client lacks
the Responses API; its inner `except` clauses absorb every exception, so
the attempt either produces an accepted text or falls through to the
GPT-4o path. -/
def gpt52Attempt (env : LLMEnv) : Option String :=
  if env.hasResponsesApi then
    match env.responsesOutcome with
    | PyResult.exn => none
    | PyResult.ok none => none
    | PyResult.ok (some raw) => postProcess raw
  else none

/-- The GPT-4o Chat Completions fallback inside `_call_llm`: raises when
the call raises, and also when the returned content is `None` (the
subsequent `len(result)` raises `TypeError`); both are caught by the
outer handler of `_call_llm`. -/
def chatStep (env : LLMEnv) : PyResult String :=
  match env.chatOutcome with
  | PyResult.exn => PyResult.exn
  | PyResult.ok none => PyResult.exn
  | PyResult.ok (some s) => PyResult.ok s

/-- `BaseAgent._mock_response`: the deterministic degraded fallback text. -/
def mockResponse (name prompt : String) : String :=
  "[Mock " ++ name ++ " Response] Based on the context: " ++ pyTake prompt 100 ++ "..."

/-- `BaseAgent._call_llm`: mock response without a client; otherwise the
GPT-5.2 attempt, then the GPT-4o fallback, with the outer
`except Exception` turning any raised exception into the mock response.
Total by construction because the outer handler encloses the whole body. -/
def callLLM (env : LLMEnv) (name prompt : String) : String :=
  if !env.hasClient then mockResponse name prompt
  else
    match (match gpt52Attempt env with
           | some s => PyResult.ok s
           | none => chatStep env) with
    | PyResult.ok s => s
    | PyResult.exn => mockResponse name prompt

/-- The state reset `analyze_problem.generate` performs at the start of
every run, before any update is produced: clear `kernel_hard_stop` and
`current_agent`. -/
def runStartState (s : ServerState) : ServerState :=
  { s with kernelHardStop := false, currentAgent := none }

/-- The ledger fix-up attempted by `analyze_problem.generate` when a
stopped update names a stage: if the most recent history entry is a stop
action, overwrite its `stopped_agent` with the reported stage. -/
def correctLastStop (g : String) (h : List HistEntry) : List HistEntry :=
  match h.getLast? with
  | some e => if e.action = "stop" then h.dropLast ++ [{ e with stoppedAgent := some g }] else h
  | none => h

/-- The per-update bookkeeping of the streaming loop in
`analyze_problem.generate` (`main.py` lines 113-124): updates whose
`agent` is present and not `"system"` move `current_agent` on thinking
and complete, and trigger the ledger fix-up on a stopped update naming a
stage; every other update leaves the state unchanged. -/
def handleUpdate (s : ServerState) (u : Event) : ServerState :=
  if u.agent ≠ "" ∧ u.agent ≠ "system" then
    if u.status = EvStatus.thinking then { s with currentAgent := some u.agent }
    else if u.status = EvStatus.complete then { s with currentAgent := some u.agent }
    else
      match u.status, u.stoppedAgent with
      | EvStatus.stopped, some g =>
        if g = "" then s
        else { s with kernelStopHistory := correctLastStop g s.kernelStopHistory }
      | _, _ => s
  else s

/-- One exported row of `GET /kernel/history/export`
(`export_kernel_history` in `main.py`): timestamp, upper-cased action,
and for stop rows the humanized stage name (underscores to spaces, then
Python `title()`), with `"Unknown"` passed through; reset rows render
`"N/A"`. -/
def exportRow (e : HistEntry) : List String :=
  [e.timestamp,
   pyUpper e.action,
   if e.action = "stop" then
     (let a := e.stoppedAgent.getD "Unknown"
      if a = "Unknown" then "Unknown" else pyTitle (pyReplace a "_" " "))
   else "N/A"]

/-- The exported table of `GET /kernel/history/export`: the header row
followed by one row per ledger entry, in order. -/
def exportKernelHistory (h : List HistEntry) : List (List String) :=
  ["Timestamp", "Action", "Stopped Agent"] :: h.map exportRow

/-- A kernel environment under which every poll of the run reports stop
only after the summary stage: the first four polls answer continue, the
fifth answers halt. -/
def kenvLate : Nat → CheckEnv := fun i => if i < 4 then contEnv else stopEnv

/-- A kernel environment under which the poll after the analysis stage
answers continue and every later poll answers halt. -/
def kenvEarly : Nat → CheckEnv := fun i => if i = 0 then contEnv else stopEnv

/-- C1: for every accepted problem, when no kernel poll during the run
observes an activated cancellation flag and no orchestration fault
occurs, `process_problem_stream` yields exactly the 11 updates: starting,
then a thinking/complete pair for analysis, research, critic and monitor
in that order, then the summary thinking/complete pair whose complete
carries `done = true` — no other events and no other order. -/
theorem claim_C1_normal_run (problem : String) (resp : Nat → String)
    (kenv : Nat → CheckEnv) (h : ∀ i, checkKernel (kenv i) = true) :
    processProblemStream problem resp kenv = normalEvents resp ∧
    (normalEvents resp).length = 11 ∧
    (completeEvent 4 (resp 4)).done = true := by
  refine ⟨?_, rfl, rfl⟩
  simp [processProblemStream, runTrace, traceStages, eventsOf, normalEvents, stagePairs, h]

/-- Witness for C1 at the problem of Scenario A with every poll
answering continue. -/
theorem claim_C1_normal_run_witness :
    processProblemStream "What is the capital of France?" (fun _ => "out") (fun _ => contEnv) =
      normalEvents (fun _ => "out") :=
  (claim_C1_normal_run "What is the capital of France?" (fun _ => "out") (fun _ => contEnv)
    (fun _ => rfl)).1

/-- C2: if the kernel poll following the complete update of stage `j` reports
halt (and every earlier poll reported continue), the stream is exactly
the normal events up to stage `j` followed by one terminal stopped event
whose `stopped_agent` names stage `j`, and the generation calls made are
exactly those of stages `0..j` — no later stage ever yields an update or
has its generation call made. -/
theorem claim_C2_stop_at_boundary (problem : String) (resp : Nat → String)
    (kenv : Nat → CheckEnv) (j : Nat) (hj : j < 5)
    (hbefore : ∀ i, i < j → checkKernel (kenv i) = true)
    (hstop : checkKernel (kenv j) = false) :
    processProblemStream problem resp kenv =
      (startingEvent :: stagePairs resp (j + 1)) ++ [stoppedEvent j] ∧
    generationCalls problem resp kenv = (List.range (j + 1)).map agentName := by
  interval_cases j <;>
    constructor <;>
    simp [processProblemStream, generationCalls, runTrace, traceStages, eventsOf, beginsOf,
      stagePairs, hstop, hbefore, List.range_succ]

/-- Witness for C2 at Scenario B: activation observed at the poll after
analysis completes; the stream ends with a stopped event naming analysis
and only the analysis generation call was made. -/
theorem claim_C2_stop_at_boundary_witness :
    processProblemStream "p" (fun _ => "r") (fun _ => stopEnv) =
      (startingEvent :: stagePairs (fun _ => "r") 1) ++ [stoppedEvent 0] ∧
    generationCalls "p" (fun _ => "r") (fun _ => stopEnv) = (List.range 1).map agentName :=
  claim_C2_stop_at_boundary "p" (fun _ => "r") (fun _ => stopEnv) 0 (by omega)
    (fun i hi => absurd hi (by omega)) rfl

/-- C5: at the start of every new run, before any stage update is
produced, `analyze_problem.generate` resets the process-wide cancellation
flag to false; consequently a run started from any prior state (including
one left by the stop of a previous run), with no activation during the run,
completes all five stages normally. -/
theorem claim_C5_run_reset (s : ServerState) (problem : String) (resp : Nat → String) :
    (runStartState s).kernelHardStop = false ∧
    processProblemStream problem resp (fun _ => serverKernelEnv (runStartState s)) =
      normalEvents resp := by
  constructor
  · rfl
  · simp [processProblemStream, runTrace, traceStages, eventsOf, normalEvents, stagePairs,
      checkKernel, serverKernelEnv, kernelEndpointStatus, runStartState]

/-- C7: `reset` leaves the flag false (also when it already was false) and
appends exactly one reset entry; `stop` sets the flag true and appends
exactly one stop entry; each operation is idempotent in its effect on the
flag, yet every call grows the ledger by exactly one entry. -/
theorem claim_C7_control_ops (s : ServerState) (t tp : String) :
    (kernelResetOp t s).kernelHardStop = false ∧
    (kernelResetOp t s).kernelStopHistory = s.kernelStopHistory ++ [⟨t, "reset", none⟩] ∧
    (kernelStopOp t s).kernelHardStop = true ∧
    (kernelStopOp t s).kernelStopHistory =
      s.kernelStopHistory ++ [⟨t, "stop", some (s.currentAgent.getD "Unknown")⟩] ∧
    (kernelResetOp t (kernelResetOp tp s)).kernelHardStop =
      (kernelResetOp tp s).kernelHardStop ∧
    (kernelStopOp t (kernelStopOp tp s)).kernelHardStop =
      (kernelStopOp tp s).kernelHardStop ∧
    (kernelResetOp t s).kernelStopHistory.length = s.kernelStopHistory.length + 1 ∧
    (kernelStopOp t s).kernelStopHistory.length = s.kernelStopHistory.length + 1 := by
  simp [kernelResetOp, kernelStopOp]

/-- C10: the cancellation poll fails open — if the provided check
function raises, or (with no check function) the HTTP fallback errors or
answers with a non-200 status, `_check_kernel` reports continue; a run
all of whose polls observe such a faulty environment is never halted:
it yields the full normal event sequence and makes all five generation
calls. -/
theorem claim_C10_fail_open (env : CheckEnv)
    (h : env.kernelCheckFunc = some PyResult.exn ∨
      (env.kernelCheckFunc = none ∧
        (env.httpResult = PyResult.exn ∨
          ∃ r, env.httpResult = PyResult.ok r ∧ r.statusCode ≠ 200))) :
    checkKernel env = true ∧
    ∀ problem resp, processProblemStream problem resp (fun _ => env) = normalEvents resp ∧
      generationCalls problem resp (fun _ => env) =
        ["analysis", "research", "critic", "monitor", "summary"] := by
  have hk : checkKernel env = true := by
    rcases h with h1 | ⟨h2, h3 | ⟨r, hr, hc⟩⟩ <;> simp [checkKernel, *]
  refine ⟨hk, fun problem resp => ⟨?_, ?_⟩⟩ <;>
    simp [processProblemStream, generationCalls, runTrace, traceStages, eventsOf, beginsOf,
      normalEvents, stagePairs, hk, agentName]

/-- Witness for C10 with a check function that raises. -/
theorem claim_C10_fail_open_witness :
    checkKernel ⟨some PyResult.exn, PyResult.exn⟩ = true ∧
    ∀ problem resp,
      processProblemStream problem resp (fun _ => (⟨some PyResult.exn, PyResult.exn⟩ : CheckEnv)) =
        normalEvents resp ∧
      generationCalls problem resp (fun _ => (⟨some PyResult.exn, PyResult.exn⟩ : CheckEnv)) =
        ["analysis", "research", "critic", "monitor", "summary"] :=
  claim_C10_fail_open ⟨some PyResult.exn, PyResult.exn⟩ (Or.inl rfl)

/-- C3 counterexample: a run whose polls all answer continue until the
one right after the done-marked summary complete, which answers halt,
yields two terminal events — the done-marked summary complete and then a
trailing stopped event — refuting "at most one terminal event per run". -/
theorem claim_C3_counterexample :
    ¬ countTerminal (processProblemStream "p" (fun _ => "r") kenvLate) ≤ 1 := by
  have h : countTerminal (processProblemStream "p" (fun _ => "r") kenvLate) = 2 := by decide
  omega

/-- C3 amended: the stream of every run contains at most two terminal events,
and it contains two exactly when the first four polls answer continue and
the poll after the done-marked summary complete answers halt — in which
case the done-marked complete is followed by one stopped event; in every
other case the stream has at most one terminal. -/
theorem claim_C3_amended (problem : String) (resp : Nat → String) (kenv : Nat → CheckEnv) :
    countTerminal (processProblemStream problem resp kenv) ≤ 2 ∧
    (countTerminal (processProblemStream problem resp kenv) = 2 ↔
      (checkKernel (kenv 0) = true ∧ checkKernel (kenv 1) = true ∧
       checkKernel (kenv 2) = true ∧ checkKernel (kenv 3) = true ∧
       checkKernel (kenv 4) = false)) := by
  cases h0 : checkKernel (kenv 0) <;> cases h1 : checkKernel (kenv 1) <;>
    cases h2 : checkKernel (kenv 2) <;> cases h3 : checkKernel (kenv 3) <;>
    cases h4 : checkKernel (kenv 4) <;>
    simp [processProblemStream, runTrace, traceStages, eventsOf, countTerminal, isTerminal,
      startingEvent, thinkingEvent, completeEvent, stoppedEvent, h0, h1, h2, h3, h4]

/-- Number of begins at or after a position never exceeds the total
number of begins of the trace. -/
theorem countBeginsFrom_le_total (k : Nat) (tr : List Action) :
    countBeginsFrom k tr ≤ countBeginsFrom 0 tr := by
  unfold countBeginsFrom
  simp only [List.drop_zero]
  exact List.Sublist.length_le (List.Sublist.filter _ (List.drop_sublist k tr))

/-- Along the per-stage loop, if every poll at or after position `k`
reports stop, then at most one stage generation call begins at or after
position `k`. -/
theorem traceStages_beginsFrom_le_one (resp : Nat → String) (kenv : Nat → CheckEnv)
    (l : List Nat) (k : Nat)
    (h : pollsStopFrom k (traceStages resp kenv l) = true) :
    countBeginsFrom k (traceStages resp kenv l) ≤ 1 := by
  induction l generalizing k with
  | nil => simp [traceStages, countBeginsFrom]
  | cons i rest ih =>
    cases hc : checkKernel (kenv i) with
    | false =>
      have htot : countBeginsFrom 0 (traceStages resp kenv (i :: rest)) = 1 := by
        simp [traceStages, hc, countBeginsFrom, isBegin]
      exact le_of_le_of_eq (countBeginsFrom_le_total k _) htot
    | true =>
      rcases k with _ | _ | _ | _ | _ | n
      · simp [traceStages, hc, pollsStopFrom, pollContOk] at h
      · simp [traceStages, hc, pollsStopFrom, pollContOk] at h
      · simp [traceStages, hc, pollsStopFrom, pollContOk] at h
      · simp [traceStages, hc, pollsStopFrom, pollContOk] at h
      · simp [traceStages, hc, pollsStopFrom, pollContOk] at h
      · have h' : pollsStopFrom n (traceStages resp kenv rest) = true := by
          simpa [traceStages, hc, pollsStopFrom] using h
        have := ih n h'
        simpa [traceStages, hc, countBeginsFrom] using this

/-- C4 counterexample: with the poll after analysis answering continue
and activation taking effect immediately after that poll (position 6 of
the trace, so that every poll at or after that instant reports stop), the
generation call of the research stage still begins after the activation
instant — the number of stages beginning after activation is 1, not 0. -/
theorem claim_C4_counterexample :
    ¬ (pollsStopFrom 6 (runTrace "p" (fun _ => "r") kenvEarly) = true →
       countBeginsFrom 6 (runTrace "p" (fun _ => "r") kenvEarly) = 0) := by
  intro h
  have h1 : countBeginsFrom 6 (runTrace "p" (fun _ => "r") kenvEarly) = 1 := by decide
  have h2 := h (by decide)
  omega

/-- C4 amended: for every run and every activation instant (a trace
position after which every kernel poll reports stop), at most one stage
generation call begins after that instant — the stage whose boundary poll
already answered continue before the activation; every later stage never
begins. -/
theorem claim_C4_amended (problem : String) (resp : Nat → String)
    (kenv : Nat → CheckEnv) (k : Nat)
    (h : pollsStopFrom k (runTrace problem resp kenv) = true) :
    countBeginsFrom k (runTrace problem resp kenv) ≤ 1 := by
  rcases k with _ | n
  · have h' : pollsStopFrom 0 (traceStages resp kenv [0, 1, 2, 3, 4]) = true := by
      simpa [runTrace, pollsStopFrom, pollContOk] using h
    simpa [runTrace, countBeginsFrom, isBegin] using
      traceStages_beginsFrom_le_one resp kenv [0, 1, 2, 3, 4] 0 h'
  · have h' : pollsStopFrom n (traceStages resp kenv [0, 1, 2, 3, 4]) = true := by
      simpa [runTrace, pollsStopFrom] using h
    simpa [runTrace, countBeginsFrom] using
      traceStages_beginsFrom_le_one resp kenv [0, 1, 2, 3, 4] n h'

/-- Witness for the amended C4 at the run and instant of the counterexample. -/
theorem claim_C4_amended_witness :
    pollsStopFrom 6 (runTrace "p" (fun _ => "r") kenvEarly) = true ∧
    countBeginsFrom 6 (runTrace "p" (fun _ => "r") kenvEarly) ≤ 1 :=
  ⟨by decide, claim_C4_amended "p" (fun _ => "r") kenvEarly 6 (by decide)⟩

/-- No update yielded along the per-stage loop carries the error status:
stages emit thinking, complete and stopped updates only. -/
theorem traceStages_no_error (resp : Nat → String) (kenv : Nat → CheckEnv)
    (l : List Nat) : ∀ e ∈ eventsOf (traceStages resp kenv l), e.status ≠ EvStatus.error := by
  induction l with
  | nil => simp [traceStages, eventsOf]
  | cons i rest ih =>
    intro e he
    cases hc : checkKernel (kenv i) with
    | false =>
      simp [traceStages, hc, eventsOf] at he
      rcases he with he | he | he
      · subst he; by_cases hi : i = 4 <;> simp [thinkingEvent, hi]
      · subst he; by_cases hi : i = 4 <;> simp [completeEvent, hi]
      · subst he; simp [stoppedEvent]
    | true =>
      simp [traceStages, hc, eventsOf] at he
      rcases he with he | he | he
      · subst he; by_cases hi : i = 4 <;> simp [thinkingEvent, hi]
      · subst he; by_cases hi : i = 4 <;> simp [completeEvent, hi]
      · exact ih e (by simpa [eventsOf] using he)

/-- C6: a stage generation call never raises past the stage boundary —
`_call_llm` is total (the outer handler absorbs every exception), and on
any internal failure (missing API key so no client, or both the GPT-5.2
attempt and the GPT-4o fallback failing) it returns the deterministic
degraded fallback text `_mock_response`; accordingly the stream of a run never
carries an error-status update from a stage, only normal completes. -/
theorem claim_C6_stage_isolation (env : LLMEnv) (name prompt problem : String)
    (resp : Nat → String) (kenv : Nat → CheckEnv) :
    (env.hasClient = false ∨ (gpt52Attempt env = none ∧ chatStep env = PyResult.exn) →
      callLLM env name prompt = mockResponse name prompt) ∧
    ∀ e ∈ processProblemStream problem resp kenv, e.status ≠ EvStatus.error := by
  constructor
  · intro h
    rcases h with h | ⟨h1, h2⟩
    · simp [callLLM, h]
    · cases hcl : env.hasClient <;> simp [callLLM, hcl, h1, h2]
  · intro e he
    simp [processProblemStream, runTrace, eventsOf] at he
    rcases he with he | he
    · subst he; simp [startingEvent]
    · exact traceStages_no_error resp kenv [0, 1, 2, 3, 4] e (by simpa [eventsOf] using he)

/-- Witness for C6 with a client whose GPT-5.2 call and GPT-4o call both
raise: the stage records the mock fallback text. -/
theorem claim_C6_stage_isolation_witness :
    callLLM ⟨true, true, PyResult.exn, PyResult.exn⟩ "Analysis Agent" "prompt" =
      mockResponse "Analysis Agent" "prompt" :=
  (claim_C6_stage_isolation ⟨true, true, PyResult.exn, PyResult.exn⟩ "Analysis Agent" "prompt"
    "p" (fun _ => "r") (fun _ => contEnv)).1 (Or.inr ⟨rfl, rfl⟩)

/-- C8: the export is the header row Timestamp/Action/Stopped Agent
followed by one row per ledger entry in order; a stop row upper-cases the
action and humanizes the stage name (underscores to spaces, words
capitalized), a non-stop row upper-cases the action and renders "N/A";
in particular a ledger of one stop entry for stage "research" followed by
one reset entry exports exactly the rows (STOP, Research) and
(RESET, N/A). -/
theorem claim_C8_export (ledger : List HistEntry) (t1 t2 : String) :
    exportKernelHistory [⟨t1, "stop", some "research"⟩, ⟨t2, "reset", none⟩] =
      [["Timestamp", "Action", "Stopped Agent"],
       [t1, "STOP", "Research"], [t2, "RESET", "N/A"]] ∧
    exportKernelHistory ledger =
      ["Timestamp", "Action", "Stopped Agent"] :: ledger.map exportRow ∧
    (∀ e ∈ ledger, e.action = "stop" →
      exportRow e =
        [e.timestamp, "STOP", pyTitle (pyReplace (e.stoppedAgent.getD "Unknown") "_" " ")]) ∧
    (∀ e ∈ ledger, e.action ≠ "stop" →
      exportRow e = [e.timestamp, pyUpper e.action, "N/A"]) := by
  refine ⟨?_, rfl, ?_, ?_⟩
  · simp [exportKernelHistory, exportRow,
      show pyUpper "stop" = "STOP" from by decide,
      show pyUpper "reset" = "RESET" from by decide,
      show pyTitle (pyReplace "research" "_" " ") = "Research" from by decide]
  · intro e _ hstop
    by_cases ha : e.stoppedAgent.getD "Unknown" = "Unknown"
    · simp [exportRow, hstop, ha,
        show pyUpper "stop" = "STOP" from by decide,
        show pyTitle (pyReplace "Unknown" "_" " ") = "Unknown" from by decide]
    · simp [exportRow, hstop, ha, show pyUpper "stop" = "STOP" from by decide]
  · intro e _ hns
    simp [exportRow, hns]

/-- Witness for C8 at a concrete two-entry ledger, reading off the reset
row through the general part of the theorem. -/
theorem claim_C8_export_witness :
    exportRow ⟨"t2", "reset", none⟩ = ["t2", pyUpper "reset", "N/A"] :=
  (claim_C8_export [⟨"t2", "reset", none⟩] "a" "b").2.2.2 ⟨"t2", "reset", none⟩ (by simp)
    (by decide)

/-- A process state holding a stale activation and a stale current-agent
pointer from before the run under scrutiny. -/
def bugInitState : ServerState := ⟨true, some "stale", []⟩

/-- The process state right after a new run resets the kernel and a stop
is then activated before any stage update has been processed: the ledger
holds one stop entry attributed to "Unknown". -/
def bugStoppedState : ServerState := kernelStopOp "t0" (runStartState bugInitState)

/-- C9: the run that halts after analysis emits a stopped update naming
"analysis" while the most recent ledger entry is a stop action attributed
to "Unknown"; the fix-up helper applied as the claim describes would
correct that attribution, yet after the streaming loop of
`analyze_problem.generate` processes the whole run the entry still reads
"Unknown" — the correction branch is nested under a guard excluding
updates whose agent is "system", and every stopped update carries agent
"system", so the claimed in-place correction never happens. -/
theorem claim_C9_fixup_unreachable :
    processProblemStream "p" (fun _ => "r") (fun _ => serverKernelEnv bugStoppedState) =
      [startingEvent, thinkingEvent 0, completeEvent 0 "r", stoppedEvent 0] ∧
    (stoppedEvent 0).stoppedAgent = some "analysis" ∧
    bugStoppedState.kernelStopHistory = [⟨"t0", "stop", some "Unknown"⟩] ∧
    correctLastStop "analysis" [⟨"t0", "stop", some "Unknown"⟩] =
      [⟨"t0", "stop", some "analysis"⟩] ∧
    ((processProblemStream "p" (fun _ => "r") (fun _ => serverKernelEnv bugStoppedState)).foldl
        handleUpdate bugStoppedState).kernelStopHistory =
      [⟨"t0", "stop", some "Unknown"⟩] := by
  exact ⟨by decide, by decide, by decide, by decide, by decide⟩

end FourAgents
